import Mathlib

/-!
Verification of the feeding-plan computation engine of DogFoodTracker.

This file is a shallow embedding, over exact rationals, of the arithmetic
core in `app/core/calculations.py` and of the plan/simulation endpoints in
`app/api/plans.py`, together with theorems settling the specification
claims about them.  Display rounding (`round(x, 2)` on returned figures)
and message formatting are omitted; branch structure and formulas follow
the source.
-/

/-- Python float truthiness for an optional numeric field:
`None` and `0.0` are falsy, every other float is truthy.
Used wherever the source writes `if value and ...` on an optional field. -/
def pyTruthy : Option ℚ → Bool
  | none => false
  | some x => x != 0

/-- Function `get_activity_factor` from `app/core/calculations.py` (lines 56-90):
puppy checks first (age under 1 year, subdivided at 4 months), then the
weight-management branch when both target and current weight are given
(strict less / strict greater, equal weights fall through), then the
neutered/intact adult factors.  Factors are the `ACTIVITY_FACTORS` table:
3.0, 2.0, 1.1, 1.8, 1.6, 1.8. -/
def get_activity_factor (neutered : Bool) (age_years : ℚ)
    (target_weight_kg current_weight_kg : Option ℚ) : ℚ :=
  if age_years < 1 then
    if age_years < 4/12 then 3 else 2
  else
    match target_weight_kg, current_weight_kg with
    | some t, some c =>
        if t < c then 11/10
        else if c < t then 9/5
        else if neutered then 8/5 else 9/5
    | _, _ => if neutered then 8/5 else 9/5

/-- The activity-factor selection exactly as the specification words it
(spec §4.1, claim C4): a strict priority ladder — age < 4/12 → 3.0;
4/12 ≤ age < 1 → 2.0; both weights given and target < current → 1.1;
both given and target > current → 1.8; else neutered → 1.6, intact → 1.8. -/
def specActivityFactor (neutered : Bool) (age_years : ℚ)
    (target_weight_kg current_weight_kg : Option ℚ) : ℚ :=
  if age_years < 4/12 then 3
  else if age_years < 1 then 2
  else
    match target_weight_kg, current_weight_kg with
    | some t, some c =>
        if t < c then 11/10
        else if t > c then 9/5
        else if neutered then 8/5 else 9/5
    | _, _ => if neutered then 8/5 else 9/5

/-- C4: for every combination of neutered flag, age, and optional
target/current weights, the code's activity factor equals the
specification's strict-priority ladder: age < 4/12 gives 3.0,
4/12 ≤ age < 1 gives 2.0, then (when both weights are given)
target < current gives 1.1 and target > current gives 1.8 ahead of
neuter status, otherwise neutered gives 1.6 and intact 1.8. -/
theorem activity_factor_matches_spec (neutered : Bool) (age_years : ℚ)
    (target_weight_kg current_weight_kg : Option ℚ) :
    get_activity_factor neutered age_years target_weight_kg current_weight_kg =
      specActivityFactor neutered age_years target_weight_kg current_weight_kg := by
  unfold get_activity_factor specActivityFactor
  rcases target_weight_kg with _ | t <;> rcases current_weight_kg with _ | c <;>
    split_ifs <;> first | rfl | linarith

/-- Result record of `analyze_ca_p_ratio` (the fields the claims are
about; `message` strings are display formatting and omitted). -/
structure CaPAnalysis where
  total_calcium_mg : ℚ
  total_phosphorus_mg : ℚ
  ca_p_ratio : ℚ
  status : String
  calcium_gap_mg : Option ℚ
  eggshell_recommendation_g : Option ℚ
deriving DecidableEq

/-- Function `analyze_ca_p_ratio` from `app/core/calculations.py` (lines 372-451)
over exact rationals: phosphorus ≤ 0 → "unknown" with ratio 0; ratio in
[1.1, 2.0] → "optimal"; ratio in [1.0, 1.1) → "acceptable"; ratio < 1.0 →
"low" with `calcium_gap = phosphorus*1.0 - calcium` and eggshell grams
`gap / (38/100 * 1000)` (`EGGSHELL_CALCIUM_PCT = 38.0`); otherwise
"high".  The source's 2-decimal display rounding is omitted. -/
def analyze_ca_p_ratio (total_calcium_mg total_phosphorus_mg : ℚ) : CaPAnalysis :=
  if total_phosphorus_mg ≤ 0 then
    ⟨total_calcium_mg, 0, 0, "unknown", none, none⟩
  else if 11/10 ≤ total_calcium_mg / total_phosphorus_mg ∧
      total_calcium_mg / total_phosphorus_mg ≤ 2 then
    ⟨total_calcium_mg, total_phosphorus_mg,
      total_calcium_mg / total_phosphorus_mg, "optimal", none, none⟩
  else if 1 ≤ total_calcium_mg / total_phosphorus_mg ∧
      total_calcium_mg / total_phosphorus_mg < 11/10 then
    ⟨total_calcium_mg, total_phosphorus_mg,
      total_calcium_mg / total_phosphorus_mg, "acceptable", none, none⟩
  else if total_calcium_mg / total_phosphorus_mg < 1 then
    ⟨total_calcium_mg, total_phosphorus_mg,
      total_calcium_mg / total_phosphorus_mg, "low",
      some (total_phosphorus_mg * 1 - total_calcium_mg),
      some ((total_phosphorus_mg * 1 - total_calcium_mg) / (38/100 * 1000))⟩
  else
    ⟨total_calcium_mg, total_phosphorus_mg,
      total_calcium_mg / total_phosphorus_mg, "high", none, none⟩

/-- C6: whenever phosphorus > 0 and calcium/phosphorus < 1, the analyzer
reports status "low", a calcium gap of `phosphorus - calcium`, and a
positive eggshell-powder recommendation of `gap / (0.38 * 1000)` grams,
and that recommendation exactly restores a 1:1 ratio:
`calcium + eggshell * 0.38 * 1000 = phosphorus` in exact arithmetic. -/
theorem ca_p_low_eggshell_restores_ratio (ca p : ℚ) (hp : 0 < p)
    (hr : ca / p < 1) :
    (analyze_ca_p_ratio ca p).status = "low" ∧
    (analyze_ca_p_ratio ca p).calcium_gap_mg = some (p * 1 - ca) ∧
    (analyze_ca_p_ratio ca p).eggshell_recommendation_g =
      some ((p * 1 - ca) / (38/100 * 1000)) ∧
    0 < (p * 1 - ca) / (38/100 * 1000) ∧
    ca + ((p * 1 - ca) / (38/100 * 1000)) * (38/100) * 1000 = p := by
  have hcap : ca < p := by
    have := (div_lt_one hp).mp hr
    linarith
  have hnp : ¬ p ≤ 0 := not_le.mpr hp
  have h1 : ¬ (11/10 ≤ ca / p ∧ ca / p ≤ 2) := by
    rintro ⟨h, -⟩; linarith
  have h2 : ¬ (1 ≤ ca / p ∧ ca / p < 11/10) := by
    rintro ⟨h, -⟩; linarith
  have hval : analyze_ca_p_ratio ca p =
      ⟨ca, p, ca / p, "low", some (p * 1 - ca), some ((p * 1 - ca) / (38/100 * 1000))⟩ := by
    unfold analyze_ca_p_ratio
    rw [if_neg hnp, if_neg h1, if_neg h2, if_pos hr]
  refine ⟨by rw [hval], by rw [hval], by rw [hval],
    div_pos (by linarith) (by norm_num), ?_⟩
  field_simp
  ring

/-- Witness for C6 at the spec's own example `analyze(900, 1000)`:
ratio 0.9 is "low", the gap is 100 mg, the recommendation 100/380 g is
positive, and adding it restores calcium = phosphorus = 1000. -/
theorem ca_p_low_witness :
    (analyze_ca_p_ratio 900 1000).status = "low" ∧
    (analyze_ca_p_ratio 900 1000).calcium_gap_mg = some ((1000 : ℚ) * 1 - 900) ∧
    (analyze_ca_p_ratio 900 1000).eggshell_recommendation_g =
      some (((1000 : ℚ) * 1 - 900) / (38/100 * 1000)) ∧
    (0 : ℚ) < ((1000 : ℚ) * 1 - 900) / (38/100 * 1000) ∧
    (900 : ℚ) + (((1000 : ℚ) * 1 - 900) / (38/100 * 1000)) * (38/100) * 1000 = 1000 :=
  ca_p_low_eggshell_restores_ratio 900 1000 (by norm_num) (by norm_num)

/-- The `NutrientTotals` dataclass of `app/core/calculations.py`
(lines 23-36): one rational per nutrient channel. -/
structure NutrientTotals where
  kcal : ℚ
  protein_g : ℚ
  fat_g : ℚ
  carbs_g : ℚ
  calcium_mg : ℚ
  phosphorus_mg : ℚ
  iron_mg : ℚ
  zinc_mg : ℚ
  vitamin_a_mcg : ℚ
  vitamin_d_mcg : ℚ
  vitamin_e_mg : ℚ
deriving DecidableEq

/-- The value `NutrientTotals()` with all dataclass defaults: the all-zero vector. -/
def NutrientTotals.zero : NutrientTotals := ⟨0, 0, 0, 0, 0, 0, 0, 0, 0, 0, 0⟩

/-- Channel-wise sum of two nutrient vectors (the effect of the `+=`
statements in one loop iteration of `aggregate_nutrients`). -/
def NutrientTotals.add (a b : NutrientTotals) : NutrientTotals :=
  ⟨a.kcal + b.kcal, a.protein_g + b.protein_g, a.fat_g + b.fat_g,
   a.carbs_g + b.carbs_g, a.calcium_mg + b.calcium_mg,
   a.phosphorus_mg + b.phosphorus_mg, a.iron_mg + b.iron_mg,
   a.zinc_mg + b.zinc_mg, a.vitamin_a_mcg + b.vitamin_a_mcg,
   a.vitamin_d_mcg + b.vitamin_d_mcg, a.vitamin_e_mg + b.vitamin_e_mg⟩

/-- One ingredient dict as consumed by `aggregate_nutrients`: every
numeric key may be absent (`dict.get(key, 0)` supplies 0 then). -/
structure IngEntry where
  grams : Option ℚ
  kcal_per_100g : Option ℚ
  protein_g_per_100g : Option ℚ
  fat_g_per_100g : Option ℚ
  carbs_g_per_100g : Option ℚ
  calcium_mg_per_100g : Option ℚ
  phosphorus_mg_per_100g : Option ℚ
  iron_mg_per_100g : Option ℚ
  zinc_mg_per_100g : Option ℚ
  vitamin_a_mcg_per_100g : Option ℚ
  vitamin_d_mcg_per_100g : Option ℚ
  vitamin_e_mg_per_100g : Option ℚ
deriving DecidableEq

/-- Function `calculate_nutrient_amount` from `app/core/calculations.py`
(lines 166-179): `(grams * nutrient_per_100g) / 100`. -/
def calculate_nutrient_amount (grams nutrient_per_100g : ℚ) : ℚ :=
  grams * nutrient_per_100g / 100

/-- The contribution of one ingredient dict: the eleven
`calculate_nutrient_amount(grams, ing.get(key, 0))` terms added by one
iteration of the `aggregate_nutrients` loop. -/
def entryContrib (e : IngEntry) : NutrientTotals :=
  ⟨calculate_nutrient_amount (e.grams.getD 0) (e.kcal_per_100g.getD 0),
   calculate_nutrient_amount (e.grams.getD 0) (e.protein_g_per_100g.getD 0),
   calculate_nutrient_amount (e.grams.getD 0) (e.fat_g_per_100g.getD 0),
   calculate_nutrient_amount (e.grams.getD 0) (e.carbs_g_per_100g.getD 0),
   calculate_nutrient_amount (e.grams.getD 0) (e.calcium_mg_per_100g.getD 0),
   calculate_nutrient_amount (e.grams.getD 0) (e.phosphorus_mg_per_100g.getD 0),
   calculate_nutrient_amount (e.grams.getD 0) (e.iron_mg_per_100g.getD 0),
   calculate_nutrient_amount (e.grams.getD 0) (e.zinc_mg_per_100g.getD 0),
   calculate_nutrient_amount (e.grams.getD 0) (e.vitamin_a_mcg_per_100g.getD 0),
   calculate_nutrient_amount (e.grams.getD 0) (e.vitamin_d_mcg_per_100g.getD 0),
   calculate_nutrient_amount (e.grams.getD 0) (e.vitamin_e_mg_per_100g.getD 0)⟩

/-- Function `aggregate_nutrients` from `app/core/calculations.py` (lines 182-208):
start from `NutrientTotals()` and add every ingredient's contribution in
list order. -/
def aggregate_nutrients (ingredients : List IngEntry) : NutrientTotals :=
  ingredients.foldl (fun totals ing => totals.add (entryContrib ing)) NutrientTotals.zero

/-- Channel-wise sum of a list of nutrient vectors. -/
def sumT : List NutrientTotals → NutrientTotals
  | [] => NutrientTotals.zero
  | t :: ts => t.add (sumT ts)

theorem addT_zero (a : NutrientTotals) : a.add NutrientTotals.zero = a := by
  cases a; simp [NutrientTotals.add, NutrientTotals.zero]

theorem zero_addT (a : NutrientTotals) : NutrientTotals.zero.add a = a := by
  cases a; simp [NutrientTotals.add, NutrientTotals.zero]

theorem addT_comm (a b : NutrientTotals) : a.add b = b.add a := by
  cases a; cases b; simp [NutrientTotals.add, add_comm]

theorem addT_assoc (a b c : NutrientTotals) :
    (a.add b).add c = a.add (b.add c) := by
  cases a; cases b; cases c; simp [NutrientTotals.add, add_assoc]

theorem aggregate_foldl_eq (l : List IngEntry) :
    ∀ a : NutrientTotals,
      l.foldl (fun totals ing => totals.add (entryContrib ing)) a =
        a.add (sumT (l.map entryContrib)) := by
  induction l with
  | nil => intro a; simp [sumT, addT_zero]
  | cons e l ih =>
      intro a
      simp only [List.foldl_cons, List.map_cons, sumT, ih, ← addT_assoc]

/-- Unfolding lemma: `aggregate_nutrients` is the channel-wise sum of the per-entry
contributions. -/
theorem aggregate_eq_sumT (l : List IngEntry) :
    aggregate_nutrients l = sumT (l.map entryContrib) := by
  rw [aggregate_nutrients, aggregate_foldl_eq, zero_addT]

theorem sumT_perm {l₁ l₂ : List NutrientTotals} (h : l₁.Perm l₂) :
    sumT l₁ = sumT l₂ := by
  induction h with
  | nil => rfl
  | cons x _ ih => simp [sumT, ih]
  | swap x y l => simp only [sumT, ← addT_assoc, addT_comm y x]
  | trans _ _ ih₁ ih₂ => exact ih₁.trans ih₂

/-- An ingredient dict with its `grams` value doubled (all other keys
unchanged; an absent `grams` stays absent). -/
def doubleGrams (e : IngEntry) : IngEntry :=
  ⟨e.grams.map (fun g => 2 * g), e.kcal_per_100g, e.protein_g_per_100g,
   e.fat_g_per_100g, e.carbs_g_per_100g, e.calcium_mg_per_100g,
   e.phosphorus_mg_per_100g, e.iron_mg_per_100g, e.zinc_mg_per_100g,
   e.vitamin_a_mcg_per_100g, e.vitamin_d_mcg_per_100g,
   e.vitamin_e_mg_per_100g⟩

/-- A nutrient vector with every channel doubled. -/
def NutrientTotals.double (t : NutrientTotals) : NutrientTotals :=
  ⟨2 * t.kcal, 2 * t.protein_g, 2 * t.fat_g, 2 * t.carbs_g,
   2 * t.calcium_mg, 2 * t.phosphorus_mg, 2 * t.iron_mg, 2 * t.zinc_mg,
   2 * t.vitamin_a_mcg, 2 * t.vitamin_d_mcg, 2 * t.vitamin_e_mg⟩

theorem entryContrib_double (e : IngEntry) :
    entryContrib (doubleGrams e) = (entryContrib e).double := by
  cases hg : e.grams
  all_goals simp [entryContrib, doubleGrams, NutrientTotals.double, hg,
    calculate_nutrient_amount, NutrientTotals.mk.injEq]
  all_goals repeat' apply And.intro
  all_goals ring

theorem double_addT (a b : NutrientTotals) :
    (a.add b).double = a.double.add b.double := by
  cases a; cases b
  simp [NutrientTotals.add, NutrientTotals.double, mul_add]

theorem sumT_double (l : List NutrientTotals) :
    sumT (l.map NutrientTotals.double) = (sumT l).double := by
  induction l with
  | nil =>
      simp [sumT, NutrientTotals.double, NutrientTotals.zero]
  | cons t l ih => simp [sumT, ih, double_addT]

/-- C8: nutrient aggregation is linear and commutative — doubling every
entry's `grams` value doubles every output channel of the aggregate
exactly, and permuting the entries leaves the aggregate unchanged (over
exact rationals the result is identical, so any reordering of the
floating summation stays within the 1e-6 relative tolerance). -/
theorem aggregate_linear_and_commutative :
    (∀ l : List IngEntry,
        aggregate_nutrients (l.map doubleGrams) =
          (aggregate_nutrients l).double) ∧
    (∀ l₁ l₂ : List IngEntry, l₁.Perm l₂ →
        aggregate_nutrients l₁ = aggregate_nutrients l₂) := by
  constructor
  · intro l
    rw [aggregate_eq_sumT, aggregate_eq_sumT, List.map_map]
    have : l.map (entryContrib ∘ doubleGrams) =
        (l.map entryContrib).map NutrientTotals.double := by
      rw [List.map_map]
      exact List.map_congr_left fun e _ => entryContrib_double e
    rw [this, sumT_double]
  · intro l₁ l₂ h
    rw [aggregate_eq_sumT, aggregate_eq_sumT]
    exact sumT_perm (h.map entryContrib)

/-- A concrete ingredient entry (chicken-like figures) for witnesses. -/
def sampleEntryA : IngEntry :=
  ⟨some 150, some 165, some 31, some (18/5), some 0, some 15, some 195,
   some 1, some 1, some 9, some (1/10), some (3/10)⟩

/-- A second concrete ingredient entry (rice-like figures) for witnesses. -/
def sampleEntryB : IngEntry :=
  ⟨some 100, some 130, some (27/10), some (3/10), some 28, some 10,
   some 43, some (1/5), some (1/2), some 0, some 0, some (1/25)⟩

/-- Witness for C8 at a concrete two-ingredient list: doubling the grams
doubles the aggregate, and swapping the two entries leaves it unchanged. -/
theorem aggregate_linear_witness :
    aggregate_nutrients ([sampleEntryA, sampleEntryB].map doubleGrams) =
      (aggregate_nutrients [sampleEntryA, sampleEntryB]).double ∧
    aggregate_nutrients [sampleEntryA, sampleEntryB] =
      aggregate_nutrients [sampleEntryB, sampleEntryA] :=
  ⟨aggregate_linear_and_commutative.1 [sampleEntryA, sampleEntryB],
   aggregate_linear_and_commutative.2 [sampleEntryA, sampleEntryB]
     [sampleEntryB, sampleEntryA] (List.Perm.swap sampleEntryB sampleEntryA [])⟩

theorem aggregate_cons (e : IngEntry) (l : List IngEntry) :
    aggregate_nutrients (e :: l) =
      (entryContrib e).add (aggregate_nutrients l) := by
  rw [aggregate_eq_sumT, aggregate_eq_sumT, List.map_cons, sumT]

/-- C10: `aggregate_nutrients` is total on its interface — the empty list
yields the all-zero vector; an entry whose `grams` key is absent
contributes nothing to any channel; and an entry missing a per-100g
nutrient key contributes nothing to that channel (no error is raised in
either case: the embedding is a total function, mirroring
`dict.get(key, 0)` in the source). -/
theorem aggregate_total_on_interface :
    aggregate_nutrients [] = NutrientTotals.zero ∧
    (∀ (e : IngEntry) (l : List IngEntry), e.grams = none →
        aggregate_nutrients (e :: l) = aggregate_nutrients l) ∧
    (∀ (e : IngEntry) (l : List IngEntry), e.kcal_per_100g = none →
        (aggregate_nutrients (e :: l)).kcal = (aggregate_nutrients l).kcal) ∧
    (∀ (e : IngEntry) (l : List IngEntry), e.protein_g_per_100g = none →
        (aggregate_nutrients (e :: l)).protein_g =
          (aggregate_nutrients l).protein_g) ∧
    (∀ (e : IngEntry) (l : List IngEntry), e.fat_g_per_100g = none →
        (aggregate_nutrients (e :: l)).fat_g = (aggregate_nutrients l).fat_g) ∧
    (∀ (e : IngEntry) (l : List IngEntry), e.carbs_g_per_100g = none →
        (aggregate_nutrients (e :: l)).carbs_g =
          (aggregate_nutrients l).carbs_g) ∧
    (∀ (e : IngEntry) (l : List IngEntry), e.calcium_mg_per_100g = none →
        (aggregate_nutrients (e :: l)).calcium_mg =
          (aggregate_nutrients l).calcium_mg) ∧
    (∀ (e : IngEntry) (l : List IngEntry), e.phosphorus_mg_per_100g = none →
        (aggregate_nutrients (e :: l)).phosphorus_mg =
          (aggregate_nutrients l).phosphorus_mg) ∧
    (∀ (e : IngEntry) (l : List IngEntry), e.iron_mg_per_100g = none →
        (aggregate_nutrients (e :: l)).iron_mg =
          (aggregate_nutrients l).iron_mg) ∧
    (∀ (e : IngEntry) (l : List IngEntry), e.zinc_mg_per_100g = none →
        (aggregate_nutrients (e :: l)).zinc_mg =
          (aggregate_nutrients l).zinc_mg) ∧
    (∀ (e : IngEntry) (l : List IngEntry), e.vitamin_a_mcg_per_100g = none →
        (aggregate_nutrients (e :: l)).vitamin_a_mcg =
          (aggregate_nutrients l).vitamin_a_mcg) ∧
    (∀ (e : IngEntry) (l : List IngEntry), e.vitamin_d_mcg_per_100g = none →
        (aggregate_nutrients (e :: l)).vitamin_d_mcg =
          (aggregate_nutrients l).vitamin_d_mcg) ∧
    (∀ (e : IngEntry) (l : List IngEntry), e.vitamin_e_mg_per_100g = none →
        (aggregate_nutrients (e :: l)).vitamin_e_mg =
          (aggregate_nutrients l).vitamin_e_mg) := by
  refine ⟨rfl, ?_, ?_, ?_, ?_, ?_, ?_, ?_, ?_, ?_, ?_, ?_, ?_⟩ <;>
    intro e l h <;>
    rw [aggregate_cons] <;>
    cases e <;>
    simp_all [entryContrib, NutrientTotals.add, calculate_nutrient_amount]

/-- An entry with every key absent, for the C10 witness. -/
def emptyEntry : IngEntry :=
  ⟨none, none, none, none, none, none, none, none, none, none, none, none⟩

/-- Witness for C10: the empty list aggregates to zero, and prepending an
entry with no `grams` key to a concrete list changes nothing. -/
theorem aggregate_total_witness :
    aggregate_nutrients [] = NutrientTotals.zero ∧
    aggregate_nutrients (emptyEntry :: [sampleEntryA]) =
      aggregate_nutrients [sampleEntryA] :=
  ⟨aggregate_total_on_interface.1,
   aggregate_total_on_interface.2.1 emptyEntry [sampleEntryA] rfl⟩

/-- The per-100g nutrient columns of an `Ingredient` record as read by
`simulate_nutrition` and `compute_feeding_plan` (`kcal_per_100g` is
non-nullable in the model, the other channels default to 0). -/
structure NutrientProfile where
  kcal_per_100g : ℚ
  protein_g_per_100g : ℚ
  fat_g_per_100g : ℚ
  carbs_g_per_100g : ℚ
  calcium_mg_per_100g : ℚ
  phosphorus_mg_per_100g : ℚ
  iron_mg_per_100g : ℚ
  zinc_mg_per_100g : ℚ
  vitamin_a_mcg_per_100g : ℚ
  vitamin_d_mcg_per_100g : ℚ
  vitamin_e_mg_per_100g : ℚ
deriving DecidableEq

/-- The ingredient dict built by `simulate_nutrition` for a given grams
value and ingredient record: every key present. -/
def mkAggEntry (grams : ℚ) (p : NutrientProfile) : IngEntry :=
  ⟨some grams, some p.kcal_per_100g, some p.protein_g_per_100g,
   some p.fat_g_per_100g, some p.carbs_g_per_100g,
   some p.calcium_mg_per_100g, some p.phosphorus_mg_per_100g,
   some p.iron_mg_per_100g, some p.zinc_mg_per_100g,
   some p.vitamin_a_mcg_per_100g, some p.vitamin_d_mcg_per_100g,
   some p.vitamin_e_mg_per_100g⟩

/-- One recipe entry as `simulate_nutrition` reads it: ingredient id,
stored percentage, and the ingredient's per-100g nutrient record. -/
structure SimRecipeEntry where
  ingredient_id : ℕ
  percentage : ℚ
  prof : NutrientProfile
deriving DecidableEq

/-- The adjustment dict
`{adj.ingredient_id: adj.new_percentage for adj in ...}`: a left fold in
which a later entry for the same id overwrites an earlier one, then a
keyed lookup. -/
def adjustmentLookup (adjustments : List (ℕ × ℚ)) (ingredient_id : ℕ) : Option ℚ :=
  adjustments.foldl
    (fun acc adj => if adj.1 = ingredient_id then some adj.2 else acc) none

/-- The "before" vector of `simulate_nutrition` (lines 532-552): each
entry scaled to `percentage / 100 * 1000` grams of a fixed 1000 g
reference mass, then aggregated. -/
def simulate_before (entries : List SimRecipeEntry) : NutrientTotals :=
  aggregate_nutrients
    (entries.map (fun r => mkAggEntry (r.percentage / 100 * 1000) r.prof))

/-- The "after" fresh vector of `simulate_nutrition` (lines 554-575):
like `simulate_before` but each entry's percentage is replaced by the
adjustment-map value for its ingredient id when present
(`adjustment_map.get(ing.id, ri.percentage)`). -/
def simulate_after (adjustments : List (ℕ × ℚ))
    (entries : List SimRecipeEntry) : NutrientTotals :=
  aggregate_nutrients
    (entries.map (fun r =>
      mkAggEntry
        ((adjustmentLookup adjustments r.ingredient_id).getD r.percentage / 100 * 1000)
        r.prof))

/-- C7: running the Simulation Engine with an adjustment list that assigns
to every recipe entry's ingredient exactly its stored percentage yields an
"after" fresh nutrient vector identical to the "before" vector in every
channel (exact equality over rationals, hence within any floating
tolerance). -/
theorem simulate_idempotent (adjustments : List (ℕ × ℚ))
    (entries : List SimRecipeEntry)
    (h : ∀ r ∈ entries,
      adjustmentLookup adjustments r.ingredient_id = some r.percentage) :
    simulate_after adjustments entries = simulate_before entries := by
  unfold simulate_after simulate_before
  congr 1
  exact List.map_congr_left fun r hr => by rw [h r hr]; rfl

/-- Concrete two-entry recipe for the C7 witness. -/
def simEntryA : SimRecipeEntry :=
  ⟨1, 60, ⟨165, 31, 18/5, 0, 15, 195, 1, 1, 9, 1/10, 3/10⟩⟩

/-- Second concrete recipe entry for the C7 witness. -/
def simEntryB : SimRecipeEntry :=
  ⟨2, 40, ⟨130, 27/10, 3/10, 28, 10, 43, 1/5, 1/2, 0, 0, 1/25⟩⟩

/-- Witness for C7: adjusting ingredient 1 to 60% and ingredient 2 to 40%
— their stored percentages — reproduces the "before" vector exactly. -/
theorem simulate_idempotent_witness :
    simulate_after [(1, 60), (2, 40)] [simEntryA, simEntryB] =
      simulate_before [simEntryA, simEntryB] :=
  simulate_idempotent [(1, 60), (2, 40)] [simEntryA, simEntryB]
    (by decide)

/-- The four ingredient roles (`IngredientType` in the schemas). -/
inductive PlanIngredientType
  | food
  | oil
  | supplement
  | treat
deriving DecidableEq

/-- One `ing_data` dict assembled by `compute_feeding_plan`
(lines 104-128): recipe percentage plus the ingredient's record,
including the role-specific optional columns. -/
structure PlanIngredient where
  ingredient_name : String
  ingredient_type : PlanIngredientType
  percentage : ℚ
  prof : NutrientProfile
  kcal_per_ml : Option ℚ
  serving_size_ml : Option ℚ
  kcal_per_unit : Option ℚ
  units_per_day : Option ℚ
deriving DecidableEq

/-- The FOOD partition (lines 130-138). -/
def foodIngredients (entries : List PlanIngredient) : List PlanIngredient :=
  entries.filter (fun i => i.ingredient_type = PlanIngredientType.food)

/-- The OIL partition (lines 130-138). -/
def oilIngredients (entries : List PlanIngredient) : List PlanIngredient :=
  entries.filter (fun i => i.ingredient_type = PlanIngredientType.oil)

/-- The SUPPLEMENT partition (lines 130-138). -/
def supplementIngredients (entries : List PlanIngredient) : List PlanIngredient :=
  entries.filter (fun i => i.ingredient_type = PlanIngredientType.supplement)

/-- Value `total_percentage` of the strict validation (line 73): the sum of the
`percentage` of EVERY recipe entry, regardless of role. -/
def total_percentage (entries : List PlanIngredient) : ℚ :=
  (entries.map (fun i => i.percentage)).sum

/-- The strict 400-equivalent rejection of `/plan/compute`
(lines 74-78): reject when the all-entry percentage sum is below 99 or
above 101. -/
def strictPercentageReject (entries : List PlanIngredient) : Bool :=
  decide (total_percentage entries < 99) || decide (101 < total_percentage entries)

/-- Value `food_total_percentage` (line 141): percentage sum over FOOD entries
only. -/
def food_total_percentage (entries : List PlanIngredient) : ℚ :=
  ((foodIngredients entries).map (fun i => i.percentage)).sum

/-- Replace an ingredient's percentage (the in-place mutation of
lines 144-145). -/
def PlanIngredient.setPct (i : PlanIngredient) (p : ℚ) : PlanIngredient :=
  ⟨i.ingredient_name, i.ingredient_type, p, i.prof, i.kcal_per_ml,
   i.serving_size_ml, i.kcal_per_unit, i.units_per_day⟩

/-- The FOOD list after the silent renormalization path (lines 140-145):
when FOOD entries exist and their percentage sum falls outside [99, 101],
each FOOD percentage is rescaled by `pct / sum * 100`; otherwise the list
is unchanged. -/
def renormalizedFoods (entries : List PlanIngredient) : List PlanIngredient :=
  if foodIngredients entries ≠ [] ∧
      (food_total_percentage entries < 99 ∨ 101 < food_total_percentage entries) then
    (foodIngredients entries).map
      (fun i => i.setPct (i.percentage / food_total_percentage entries * 100))
  else
    foodIngredients entries

/-- The kcal one OIL entry adds to `oils_kcal_per_day` in the
budget-subtraction loop (lines 148-154): `kcal_per_ml * serving_size_ml`
when both are truthy, else the 0.92 g/mL density approximation
`(serving_size_ml * 0.92 / 100) * kcal_per_100g` when `kcal_per_100g` and
`serving_size_ml` are truthy, else nothing. -/
def oilBudgetKcal (i : PlanIngredient) : ℚ :=
  if pyTruthy i.kcal_per_ml && pyTruthy i.serving_size_ml then
    i.kcal_per_ml.getD 0 * i.serving_size_ml.getD 0
  else if (i.prof.kcal_per_100g != 0) && pyTruthy i.serving_size_ml then
    i.serving_size_ml.getD 0 * (92/100) / 100 * i.prof.kcal_per_100g
  else 0

/-- Value `oils_kcal_per_day` (lines 148-154). -/
def oils_kcal_per_day (entries : List PlanIngredient) : ℚ :=
  ((oilIngredients entries).map oilBudgetKcal).sum

/-- The kcal one SUPPLEMENT entry adds to `supplements_kcal_per_day`
(lines 156-159): `kcal_per_unit * units_per_day` when both truthy. -/
def suppBudgetKcal (i : PlanIngredient) : ℚ :=
  if pyTruthy i.kcal_per_unit && pyTruthy i.units_per_day then
    i.kcal_per_unit.getD 0 * i.units_per_day.getD 0
  else 0

/-- Value `supplements_kcal_per_day` (lines 156-159). -/
def supplements_kcal_per_day (entries : List PlanIngredient) : ℚ :=
  ((supplementIngredients entries).map suppBudgetKcal).sum

/-- Value `weighted_avg_kcal_per_100g` (lines 164-171): sum of
`percentage / 100 * kcal_per_100g` over the (possibly renormalized) FOOD
entries; 0 when there are none. -/
def weighted_avg_kcal_per_100g (entries : List PlanIngredient) : ℚ :=
  ((renormalizedFoods entries).map
    (fun i => i.percentage / 100 * i.prof.kcal_per_100g)).sum

/-- Value `actual_batch_kcal` (line 174): the homemade budget minus oil and
supplement kcal; may be negative. -/
def actual_batch_kcal (entries : List PlanIngredient) (homemade_kcal : ℚ) : ℚ :=
  homemade_kcal - oils_kcal_per_day entries - supplements_kcal_per_day entries

/-- Value `total_grams_per_day` (lines 177-180): the gram quantity is computed
only when BOTH the weighted average and the remaining batch kcal are
positive; otherwise it is 0. -/
def total_grams_per_day (entries : List PlanIngredient) (homemade_kcal : ℚ) : ℚ :=
  if 0 < weighted_avg_kcal_per_100g entries ∧
      0 < actual_batch_kcal entries homemade_kcal then
    actual_batch_kcal entries homemade_kcal / weighted_avg_kcal_per_100g entries * 100
  else 0

/-- Per-FOOD-entry grams per day (line 199):
`total_grams_per_day * percentage / 100` with the (renormalized)
percentage. -/
def foodGramsPerDay (entries : List PlanIngredient) (homemade_kcal : ℚ)
    (i : PlanIngredient) : ℚ :=
  total_grams_per_day entries homemade_kcal * (i.percentage / 100)

/-- The serving volume used by the OIL portion loop (line 243):
`oil_data["serving_size_ml"] or 5` — Python `or` falls back to 5 mL when
the column is `None` or `0.0`. -/
def oilServingMl (i : PlanIngredient) : ℚ :=
  if pyTruthy i.serving_size_ml then i.serving_size_ml.getD 0 else 5

/-- The per-day kcal reported in an OIL portion record (lines 244-252):
`ml_per_day = serving_ml * meals_per_day`, then
`kcal_per_ml * ml_per_day` when `kcal_per_ml` is truthy, else the
0.92 g/mL approximation `(ml_per_day * 0.92 / 100) * kcal_per_100g`. -/
def oilPortionKcalPerDay (i : PlanIngredient) (meals_per_day : ℚ) : ℚ :=
  if pyTruthy i.kcal_per_ml then
    i.kcal_per_ml.getD 0 * (oilServingMl i * meals_per_day)
  else
    oilServingMl i * meals_per_day * (92/100) / 100 * i.prof.kcal_per_100g

/-- A FOOD entry at 100% of the batch, 100 kcal/100g. -/
def chickenFood : PlanIngredient :=
  ⟨"chicken breast", PlanIngredientType.food, 100,
   ⟨100, 31, 18/5, 0, 15, 195, 1, 1, 9, 1/10, 3/10⟩, none, none, none, none⟩

/-- An OIL entry carrying a 5% recipe percentage, 10 kcal/mL and a 20 mL
serving. -/
def fishOil : PlanIngredient :=
  ⟨"fish oil", PlanIngredientType.oil, 5,
   ⟨900, 0, 100, 0, 0, 0, 0, 0, 0, 0, 0⟩, some 10, some 20, none, none⟩

/-- An OIL entry with 9 kcal/mL and a 5 mL serving, for the C5 failing
input. -/
def salmonOil : PlanIngredient :=
  ⟨"salmon oil", PlanIngredientType.oil, 2,
   ⟨884, 0, 100, 0, 0, 0, 0, 0, 0, 0, 0⟩, some 9, some 5, none, none⟩

theorem total_percentage_ex : total_percentage [chickenFood, fishOil] = 105 := by
  have h : total_percentage [chickenFood, fishOil] = 100 + (5 + 0) := rfl
  rw [h]; norm_num

theorem food_total_percentage_ex :
    food_total_percentage [chickenFood, fishOil] = 100 := by
  have h : food_total_percentage [chickenFood, fishOil] = 100 + 0 := rfl
  rw [h]; norm_num

/-- C3 counterexample: a recipe whose FOOD percentages sum to exactly 100
but which also contains an OIL entry carrying a 5% percentage IS rejected
by the strict compute check (the all-entry sum is 105), refuting the
claim that OIL/SUPPLEMENT/TREAT percentages are excluded from the strict
100% constraint and cannot affect rejection. -/
theorem strict_reject_counts_oil_counterexample :
    strictPercentageReject [chickenFood, fishOil] = true ∧
    food_total_percentage [chickenFood, fishOil] = 100 ∧
    ¬ (food_total_percentage [chickenFood, fishOil] < 99 ∨
        101 < food_total_percentage [chickenFood, fishOil]) := by
  refine ⟨?_, food_total_percentage_ex, ?_⟩
  · simp only [strictPercentageReject, total_percentage_ex, Bool.or_eq_true,
      decide_eq_true_eq]
    norm_num
  · rw [food_total_percentage_ex]
    norm_num

/-- C3 amended: the strict top-level compute call rejects with the
400-equivalent error exactly when the percentage sum over ALL recipe
entries — FOOD, OIL, SUPPLEMENT and TREAT alike — lies outside [99, 101];
only the later, silent renormalization step restricts attention to FOOD
percentages. -/
theorem strict_reject_iff_total_outside (entries : List PlanIngredient) :
    strictPercentageReject entries = true ↔
      total_percentage entries < 99 ∨ 101 < total_percentage entries := by
  simp [strictPercentageReject]

/-- Witness for the C3 amended theorem at the counterexample recipe:
the all-entry sum 105 is outside [99, 101], and the request is rejected. -/
theorem strict_reject_iff_witness :
    strictPercentageReject [chickenFood, fishOil] = true :=
  (strict_reject_iff_total_outside [chickenFood, fishOil]).mpr
    (by rw [total_percentage_ex]; norm_num)

theorem renormalizedFoods_ex :
    renormalizedFoods [chickenFood, fishOil] = [chickenFood] := by
  rw [renormalizedFoods, if_neg]
  · rfl
  · rw [food_total_percentage_ex]
    rintro ⟨-, h | h⟩ <;> norm_num at h

theorem weighted_avg_ex :
    weighted_avg_kcal_per_100g [chickenFood, fishOil] = 100 := by
  have h : weighted_avg_kcal_per_100g [chickenFood, fishOil] =
      100 / 100 * 100 + 0 := by
    rw [weighted_avg_kcal_per_100g, renormalizedFoods_ex]
    rfl
  rw [h]; norm_num

theorem oilBudgetKcal_fishOil : oilBudgetKcal fishOil = 200 := by
  rw [oilBudgetKcal]
  norm_num [fishOil, pyTruthy]

theorem oils_kcal_ex : oils_kcal_per_day [chickenFood, fishOil] = 200 := by
  have h : oilIngredients [chickenFood, fishOil] = [fishOil] := rfl
  rw [oils_kcal_per_day, h, List.map_cons, List.map_nil, List.sum_cons,
    List.sum_nil, oilBudgetKcal_fishOil]
  norm_num

theorem supplements_kcal_ex :
    supplements_kcal_per_day [chickenFood, fishOil] = 0 := rfl

theorem actual_batch_ex :
    actual_batch_kcal [chickenFood, fishOil] 100 = -100 := by
  rw [actual_batch_kcal, oils_kcal_ex, supplements_kcal_ex]
  norm_num

theorem total_grams_ex : total_grams_per_day [chickenFood, fishOil] 100 = 0 := by
  rw [total_grams_per_day, if_neg]
  rintro ⟨-, h⟩
  rw [actual_batch_ex] at h
  norm_num at h

/-- C2 counterexample: a recipe with positive weighted average FOOD kcal
density (100 kcal/100g) whose oil kcal (200) exceeds the homemade budget
(100) gets `total_grams_per_day = 0`, not the negative value
`actualFoodBudget / weightedAvg * 100 = -100` the claim asserts. -/
theorem negative_budget_clamped_counterexample :
    0 < weighted_avg_kcal_per_100g [chickenFood, fishOil] ∧
    actual_batch_kcal [chickenFood, fishOil] 100 < 0 ∧
    total_grams_per_day [chickenFood, fishOil] 100 = 0 ∧
    total_grams_per_day [chickenFood, fishOil] 100 ≠
      actual_batch_kcal [chickenFood, fishOil] 100 /
        weighted_avg_kcal_per_100g [chickenFood, fishOil] * 100 := by
  refine ⟨?_, ?_, total_grams_ex, ?_⟩
  · rw [weighted_avg_ex]; norm_num
  · rw [actual_batch_ex]; norm_num
  · rw [total_grams_ex, actual_batch_ex, weighted_avg_ex]; norm_num

/-- C2 amended: `totalGramsPerDay = actualFoodBudget / weightedAvg * 100`
only when BOTH the weighted average FOOD kcal density and the remaining
food budget are positive; whenever the budget is non-positive (e.g. oil
and supplement kcal exceed the homemade budget) or the average is
non-positive, the gram total is clamped to 0 — negative gram quantities
never propagate. -/
theorem total_grams_formula_and_clamp (entries : List PlanIngredient)
    (homemade_kcal : ℚ) :
    (0 < weighted_avg_kcal_per_100g entries ∧
        0 < actual_batch_kcal entries homemade_kcal →
      total_grams_per_day entries homemade_kcal =
        actual_batch_kcal entries homemade_kcal /
          weighted_avg_kcal_per_100g entries * 100) ∧
    (actual_batch_kcal entries homemade_kcal ≤ 0 →
      total_grams_per_day entries homemade_kcal = 0) ∧
    (weighted_avg_kcal_per_100g entries ≤ 0 →
      total_grams_per_day entries homemade_kcal = 0) := by
  refine ⟨fun h => ?_, fun h => ?_, fun h => ?_⟩ <;>
    unfold total_grams_per_day
  · rw [if_pos h]
  · rw [if_neg]; rintro ⟨-, h'⟩; linarith
  · rw [if_neg]; rintro ⟨h', -⟩; linarith

theorem weighted_avg_solo : weighted_avg_kcal_per_100g [chickenFood] = 100 := by
  have hr : renormalizedFoods [chickenFood] = [chickenFood] := by
    rw [renormalizedFoods, if_neg]
    · rfl
    · have h : food_total_percentage [chickenFood] = 100 + 0 := rfl
      rw [h]
      rintro ⟨-, h' | h'⟩ <;> norm_num at h'
  have h : weighted_avg_kcal_per_100g [chickenFood] = 100 / 100 * 100 + 0 := by
    rw [weighted_avg_kcal_per_100g, hr]
    rfl
  rw [h]; norm_num

theorem actual_batch_solo : actual_batch_kcal [chickenFood] 100 = 100 := by
  have ho : oils_kcal_per_day [chickenFood] = 0 := rfl
  have hs : supplements_kcal_per_day [chickenFood] = 0 := rfl
  rw [actual_batch_kcal, ho, hs]
  norm_num

/-- Witness for the C2 amended theorem: with the FOOD-only recipe and a
100 kcal budget the formula branch applies, and with the oil-heavy recipe
the non-positive budget forces 0 grams. -/
theorem total_grams_formula_witness :
    total_grams_per_day [chickenFood] 100 =
      actual_batch_kcal [chickenFood] 100 /
        weighted_avg_kcal_per_100g [chickenFood] * 100 ∧
    total_grams_per_day [chickenFood, fishOil] 100 = 0 :=
  ⟨(total_grams_formula_and_clamp [chickenFood] 100).1
      ⟨by rw [weighted_avg_solo]; norm_num, by rw [actual_batch_solo]; norm_num⟩,
   (total_grams_formula_and_clamp [chickenFood, fishOil] 100).2.1
      (by rw [actual_batch_ex]; norm_num)⟩

/-- C5: for the OIL entry `salmonOil` (9 kcal/mL, 5 mL serving) in a
2-meals-per-day recipe, the portion record reports
`kcal_per_ml * (serving_ml * meals_per_day) = 90` kcal/day — the value
the claim specifies — but the budget loop subtracts only
`kcal_per_ml * serving_size_ml = 45` kcal (one serving, no meals factor),
so the kcal subtracted from the homemade budget is NOT the kcal reported
in the portion record. -/
theorem oil_budget_vs_portion_divergence :
    oilPortionKcalPerDay salmonOil 2 = 90 ∧
    oils_kcal_per_day [salmonOil] = 45 ∧
    oils_kcal_per_day [salmonOil] ≠ oilPortionKcalPerDay salmonOil 2 := by
  have hp : oilPortionKcalPerDay salmonOil 2 = 90 := by
    rw [oilPortionKcalPerDay, oilServingMl]
    norm_num [salmonOil, pyTruthy]
  have hb : oils_kcal_per_day [salmonOil] = 45 := by
    have h : oilIngredients [salmonOil] = [salmonOil] := rfl
    rw [oils_kcal_per_day, h, List.map_cons, List.map_nil, List.sum_cons,
      List.sum_nil, oilBudgetKcal]
    norm_num [salmonOil, pyTruthy]
  refine ⟨hp, hb, ?_⟩
  rw [hp, hb]
  norm_num

/-- Result dict of `check_aafco_compliance` (the warning text carries
numeric formatting in the source; here a fixed marker string — only its
presence or absence matters to the claims). -/
structure AAFCOCheck where
  nutrient : String
  amount_per_1000kcal : ℚ
  min_required : ℚ
  max_allowed : Option ℚ
  status : String
  warning : Option String
deriving DecidableEq

/-- Function `check_aafco_compliance` from `app/core/calculations.py`
(lines 229-263): the result starts as status "adequate" with no warning;
`amount < min` switches it to "deficient" with a warning; otherwise a
given maximum (a genuine `is not None` test) with `amount > max` switches
it to "excess" with a warning. -/
def check_aafco_compliance (nutrient : String)
    (amount_per_1000kcal min_per_1000kcal : ℚ)
    (max_per_1000kcal : Option ℚ) : AAFCOCheck :=
  if amount_per_1000kcal < min_per_1000kcal then
    ⟨nutrient, amount_per_1000kcal, min_per_1000kcal, max_per_1000kcal,
     "deficient", some (nutrient ++ " is below minimum")⟩
  else
    match max_per_1000kcal with
    | some m =>
        if m < amount_per_1000kcal then
          ⟨nutrient, amount_per_1000kcal, min_per_1000kcal, max_per_1000kcal,
           "excess", some (nutrient ++ " is above maximum")⟩
        else
          ⟨nutrient, amount_per_1000kcal, min_per_1000kcal, max_per_1000kcal,
           "adequate", none⟩
    | none =>
        ⟨nutrient, amount_per_1000kcal, min_per_1000kcal, max_per_1000kcal,
         "adequate", none⟩

/-- C9 counterexample: an amount of 90 with minimum 100 and maximum 110
lies between 0.8*max = 88 and max = 110, yet the checker reports
"deficient", not "adequate" — the claim's "an amount between 0.8*max and
max is adequate" fails when that amount is below the minimum. -/
theorem compliance_between_08max_counterexample :
    (4/5 : ℚ) * 110 < 90 ∧ (90 : ℚ) ≤ 110 ∧
    (check_aafco_compliance "calcium" 90 100 (some 110)).status = "deficient" ∧
    (check_aafco_compliance "calcium" 90 100 (some 110)).status ≠ "adequate" := by
  have hval : check_aafco_compliance "calcium" 90 100 (some 110) =
      ⟨"calcium", 90, 100, some 110, "deficient",
       some ("calcium" ++ " is below minimum")⟩ := by
    rw [check_aafco_compliance, if_pos (by norm_num)]
  refine ⟨by norm_num, by norm_num, by rw [hval], by rw [hval]; simp⟩

/-- C9 amended: for every input the compliance check's status is exactly
one of "adequate", "deficient" or "excess"; its warning is non-null iff
the status is not "adequate"; any amount below the minimum (in
particular, below half the minimum — no harsher status exists) is
"deficient"; and an amount at least the minimum and at most a given
maximum (in particular anywhere between 0.8*max and max) is "adequate". -/
theorem compliance_status_and_warning (nutrient : String)
    (amount minR : ℚ) (maxR : Option ℚ) :
    ((check_aafco_compliance nutrient amount minR maxR).status = "adequate" ∨
     (check_aafco_compliance nutrient amount minR maxR).status = "deficient" ∨
     (check_aafco_compliance nutrient amount minR maxR).status = "excess") ∧
    ((check_aafco_compliance nutrient amount minR maxR).warning ≠ none ↔
     (check_aafco_compliance nutrient amount minR maxR).status ≠ "adequate") ∧
    (amount < minR →
     (check_aafco_compliance nutrient amount minR maxR).status = "deficient") ∧
    (∀ m, maxR = some m → minR ≤ amount → amount ≤ m →
     (check_aafco_compliance nutrient amount minR maxR).status = "adequate") := by
  unfold check_aafco_compliance
  rcases maxR with _ | m
  · by_cases hlt : amount < minR
    · rw [if_pos hlt]
      exact ⟨Or.inr (Or.inl rfl), by simp, fun _ => rfl, fun m hm => by cases hm⟩
    · rw [if_neg hlt]
      exact ⟨Or.inl rfl, by simp, fun h => absurd h hlt, fun m hm => by cases hm⟩
  · by_cases hlt : amount < minR
    · rw [if_pos hlt]
      refine ⟨Or.inr (Or.inl rfl), by simp, fun _ => rfl, ?_⟩
      intro m' hm' hge _
      exact absurd hlt (not_lt.mpr hge)
    · rw [if_neg hlt]
      dsimp only
      by_cases hmax : m < amount
      · rw [if_pos hmax]
        refine ⟨Or.inr (Or.inr rfl), by simp, fun h => absurd h hlt, ?_⟩
        intro m' hm' _ hle
        injection hm' with h'
        subst h'
        exact absurd hmax (not_lt.mpr hle)
      · rw [if_neg hmax]
        exact ⟨Or.inl rfl, by simp, fun h => absurd h hlt, fun _ _ _ _ => rfl⟩

/-- Witness for the C9 amended theorem: 40 < 100 is deficient (hypothesis
40 < 100 discharged), and 105 in [100, 110] is adequate. -/
theorem compliance_status_witness :
    (check_aafco_compliance "protein" 40 100 (some 110)).status = "deficient" ∧
    (check_aafco_compliance "calcium_ok" 105 100 (some 110)).status = "adequate" :=
  ⟨(compliance_status_and_warning "protein" 40 100 (some 110)).2.2.1
      (by norm_num),
   (compliance_status_and_warning "calcium_ok" 105 100 (some 110)).2.2.2 110 rfl
      (by norm_num) (by norm_num)⟩

/-- The five per-nutrient status tags of the simulate pipeline. -/
inductive SimStatus
  | excellent
  | good
  | caution
  | bad
  | dangerous
deriving DecidableEq

/-- The `status_order` severity ranking of `simulate_nutrition`
(line 665): excellent 0, good 1, caution 2, bad 3, dangerous 4. -/
def statusOrder : SimStatus → ℕ
  | SimStatus.excellent => 0
  | SimStatus.good => 1
  | SimStatus.caution => 2
  | SimStatus.bad => 3
  | SimStatus.dangerous => 4

/-- Value `pct_of_min` (line 694): `per_1000 / min * 100` when the reference
minimum is positive, else the fallback value 100. -/
def pct_of_min (per_1000 min_per_1000kcal : ℚ) : ℚ :=
  if 0 < min_per_1000kcal then per_1000 / min_per_1000kcal * 100 else 100

/-- The per-nutrient status ladder of `simulate_nutrition`
(lines 699-715), with Python float truthiness on
`req.max_per_1000kcal` (`None` and `0.0` skip both maximum branches) and
the `pct_of_min`-based excellent test. -/
def simNutrientStatus (per_1000 min_per_1000kcal : ℚ)
    (max_per_1000kcal : Option ℚ) : SimStatus :=
  if per_1000 < min_per_1000kcal * (1/2) then SimStatus.bad
  else if per_1000 < min_per_1000kcal then SimStatus.caution
  else if pyTruthy max_per_1000kcal &&
      decide (max_per_1000kcal.getD 0 < per_1000) then SimStatus.dangerous
  else if pyTruthy max_per_1000kcal &&
      decide (max_per_1000kcal.getD 0 * (4/5) < per_1000) then SimStatus.caution
  else if 100 ≤ pct_of_min per_1000 min_per_1000kcal ∧
      pct_of_min per_1000 min_per_1000kcal ≤ 150 then SimStatus.excellent
  else SimStatus.good

/-- The ladder exactly as the claim words it: bad below half the minimum,
caution below the minimum, dangerous above a defined maximum, caution
above 0.8 of a defined maximum, excellent in [min, 1.5*min], else good. -/
def specNutrientStatus (amount minR : ℚ) (maxR : Option ℚ) : SimStatus :=
  if amount < minR * (1/2) then SimStatus.bad
  else if amount < minR then SimStatus.caution
  else if (match maxR with
           | some m => decide (m < amount)
           | none => false) then SimStatus.dangerous
  else if (match maxR with
           | some m => decide (m * (4/5) < amount)
           | none => false) then SimStatus.caution
  else if minR ≤ amount ∧ amount ≤ minR * (3/2) then SimStatus.excellent
  else SimStatus.good

/-- One step of the `overall_worst` accumulation (lines 717-718): keep
the status that ranks higher in `status_order`. -/
def worstStep (w s : SimStatus) : SimStatus :=
  if statusOrder w < statusOrder s then s else w

/-- The overall plan status of `simulate_nutrition` (lines 663 and
717-718): fold `worstStep` over the per-nutrient statuses starting from
"excellent". -/
def overall_worst (statuses : List SimStatus) : SimStatus :=
  statuses.foldl worstStep SimStatus.excellent

/-- The AAFCO reference rows seeded by `seed_aafco_requirements`
(`app/seed_data.py` lines 20-34): nutrient name, minimum per 1000 kcal,
optional maximum per 1000 kcal. -/
def aafcoSeedRows : List (String × ℚ × Option ℚ) :=
  [("protein", 45000, none), ("fat", 13750, none),
   ("calcium", 1250, some 6250), ("phosphorus", 1000, some 4000),
   ("iron", 10, none), ("zinc", 20, none),
   ("vitamin_a", 1250, some 62500), ("vitamin_d", 25/8, some (75/4)),
   ("vitamin_e", 25/2, none)]

theorem pct_of_min_ge_iff {minR : ℚ} (hmin : 0 < minR) (x : ℚ) :
    (100 ≤ pct_of_min x minR) ↔ minR ≤ x := by
  rw [pct_of_min, if_pos hmin, div_mul_eq_mul_div, le_div_iff₀ hmin]
  constructor <;> intro h <;> nlinarith

theorem pct_of_min_le_iff {minR : ℚ} (hmin : 0 < minR) (x : ℚ) :
    (pct_of_min x minR ≤ 150) ↔ x ≤ minR * (3/2) := by
  rw [pct_of_min, if_pos hmin, div_mul_eq_mul_div, div_le_iff₀ hmin]
  constructor <;> intro h <;> nlinarith

theorem simStatus_eq_specStatus (per_1000 minR : ℚ) (maxR : Option ℚ)
    (hmin : 0 < minR) (hmax : ∀ m, maxR = some m → 0 < m) :
    simNutrientStatus per_1000 minR maxR =
      specNutrientStatus per_1000 minR maxR := by
  rcases maxR with _ | m
  · unfold simNutrientStatus specNutrientStatus
    simp only [pyTruthy, Bool.false_and, Bool.false_eq_true, if_false,
      pct_of_min_ge_iff hmin, pct_of_min_le_iff hmin]
  · have hm : 0 < m := hmax m rfl
    have hne : (m != 0) = true := by simp [hm.ne']
    unfold simNutrientStatus specNutrientStatus
    simp only [pyTruthy, hne, Bool.true_and, Option.getD_some,
      pct_of_min_ge_iff hmin, pct_of_min_le_iff hmin]

theorem worst_foldl_aux (l : List SimStatus) :
    ∀ w : SimStatus,
      (∀ s ∈ l, statusOrder s ≤ statusOrder (l.foldl worstStep w)) ∧
      statusOrder w ≤ statusOrder (l.foldl worstStep w) ∧
      (l.foldl worstStep w ∈ l ∨ l.foldl worstStep w = w) := by
  induction l with
  | nil =>
      intro w
      refine ⟨?_, le_refl _, Or.inr rfl⟩
      intro s hs
      exact absurd hs (List.not_mem_nil s)
  | cons a l ih =>
      intro w
      obtain ⟨ih1, ih2, ih3⟩ := ih (worstStep w a)
      rw [List.foldl_cons]
      have hwa : statusOrder w ≤ statusOrder (worstStep w a) := by
        unfold worstStep
        split_ifs with h
        · exact le_of_lt h
        · exact le_refl _
      have haa : statusOrder a ≤ statusOrder (worstStep w a) := by
        unfold worstStep
        split_ifs with h
        · exact le_refl _
        · exact le_of_not_lt h
      refine ⟨?_, hwa.trans ih2, ?_⟩
      · intro s hs
        rcases List.mem_cons.mp hs with rfl | hs'
        · exact haa.trans ih2
        · exact ih1 s hs'
      · rcases ih3 with h | h
        · exact Or.inl (List.mem_cons_of_mem _ h)
        · by_cases hlt : statusOrder w < statusOrder a
          · have hws : worstStep w a = a := by
              unfold worstStep
              rw [if_pos hlt]
            exact Or.inl (by rw [h.trans hws]; exact List.mem_cons_self a l)
          · have hws : worstStep w a = w := by
              unfold worstStep
              rw [if_neg hlt]
            exact Or.inr (h.trans hws)

/-- C1: for every evaluated nutrient of the simulation pipeline — every
reference row has a positive minimum and a positive-or-absent maximum, as
the seeded AAFCO table does — the per-nutrient status equals the claim's
first-match ladder (bad / caution / dangerous / caution / excellent /
good), and the overall plan status is the single worst per-nutrient
status under the severity order excellent < good < caution < bad <
dangerous: it bounds every listed status and is itself one of them (or
the starting value "excellent" for an empty list). -/
theorem sim_ladder_and_overall_worst :
    (∀ (per_1000 minR : ℚ) (maxR : Option ℚ), 0 < minR →
        (∀ m, maxR = some m → 0 < m) →
        simNutrientStatus per_1000 minR maxR =
          specNutrientStatus per_1000 minR maxR) ∧
    (∀ row ∈ aafcoSeedRows,
        0 < row.2.1 ∧ ∀ m, row.2.2 = some m → 0 < m) ∧
    (∀ statuses : List SimStatus,
        (∀ s ∈ statuses,
          statusOrder s ≤ statusOrder (overall_worst statuses)) ∧
        (overall_worst statuses ∈ statuses ∨
          overall_worst statuses = SimStatus.excellent)) := by
  refine ⟨simStatus_eq_specStatus, ?_, ?_⟩
  · intro row hrow
    simp only [aafcoSeedRows, List.mem_cons, List.not_mem_nil, or_false] at hrow
    rcases hrow with rfl | rfl | rfl | rfl | rfl | rfl | rfl | rfl | rfl <;>
      refine ⟨by norm_num, ?_⟩ <;>
      intro m hm <;>
      cases hm <;> norm_num
  · intro statuses
    obtain ⟨h1, -, h3⟩ := worst_foldl_aux statuses SimStatus.excellent
    exact ⟨h1, h3⟩

/-- Witness for C1 at a concrete evaluated nutrient (calcium row: min
1250, max 6250, amount 1500 per 1000 kcal): the code ladder and the
claim's ladder agree, with both positivity hypotheses discharged. -/
theorem sim_ladder_witness :
    simNutrientStatus 1500 1250 (some 6250) =
      specNutrientStatus 1500 1250 (some 6250) :=
  sim_ladder_and_overall_worst.1 1500 1250 (some 6250) (by norm_num)
    (fun m hm => by injection hm with h; subst h; norm_num)
